import Mathlib

/-!
Verification of `killod.py`, a script that kills the OneDrive process by
name and relaunches the application, narrating each step on the console.

The script is embedded as a trace semantics.  The two external invocations
(`subprocess.run(["killall", "OneDrive"], stdout=subprocess.PIPE)` and
`subprocess.run(["open", "-a", "OneDrive"], stdout=subprocess.PIPE)`) are
modelled by an environment (`World`) that fixes, for each invocation,
whether the invocation mechanism raises (e.g. the binary is missing) or
returns, and in the latter case the return code and the byte sequences the
child process wrote to its standard output and standard error.  With
`stdout=subprocess.PIPE` the child standard output is captured into
`CompletedProcess.stdout`; standard error is not redirected, so it is not
captured by the script.  The script itself is the function `killodTrace`,
which yields the ordered list of events (lines printed by the script and
external invocations issued) together with the run outcome (normal
termination with the default successful status, or abort by an unhandled
exception).  Each `print(...)` call is one event carrying the printed line
without its trailing newline.
-/

/-- The separator line printed by the script. -/
def sepLine : String := "----------------"

/-- Argument vector of the first external invocation. -/
def killallArgs : List String := ["killall", "OneDrive"]

/-- Argument vector of the second external invocation. -/
def openArgs : List String := ["open", "-a", "OneDrive"]

/-- What one external invocation did in its environment: the return code and
the bytes the child wrote to its standard output and standard error. -/
structure InvocationResult where
  returncode : Int
  stdout_bytes : List Nat
  stderr_bytes : List Nat
deriving DecidableEq

/-- Behaviour of the invocation mechanism for one call: it either raises
(for example the command binary is missing) or completes with a result. -/
inductive InvocationBehavior where
  | raises (err : String)
  | returns (res : InvocationResult)
deriving DecidableEq

/-- The environment of one run: the behaviour of each of the two external
invocations the script performs. -/
structure World where
  killall : InvocationBehavior
  openCmd : InvocationBehavior
deriving DecidableEq

/-- The value `subprocess.run(args, stdout=subprocess.PIPE)` binds to
`result`: the argument vector, the return code, and the captured standard
output bytes.  Standard error is not redirected, hence not a field here
(`result.stderr` is `None` in the script). -/
structure CompletedProcess where
  args : List String
  returncode : Int
  stdout : List Nat
deriving DecidableEq

/-- Lower-case hexadecimal digit, as used by the Python repr of bytes. -/
def hexDigit (n : Nat) : Char :=
  if n < 10 then Char.ofNat (48 + n) else Char.ofNat (87 + n)

/-- Escape of a single byte inside a Python bytes literal delimited by the
quote with codepoint `q`: backslash and the delimiter are backslash-escaped,
tab, newline and carriage return use their two-character escapes, other
printable ASCII bytes stand for themselves, and everything else becomes a
hexadecimal escape. -/
def byteEscape (q : Nat) (b : Nat) : List Char :=
  if b = 92 then [Char.ofNat 92, Char.ofNat 92]
  else if b = q then [Char.ofNat 92, Char.ofNat q]
  else if b = 9 then [Char.ofNat 92, Char.ofNat 116]
  else if b = 10 then [Char.ofNat 92, Char.ofNat 110]
  else if b = 13 then [Char.ofNat 92, Char.ofNat 114]
  else if 32 ≤ b ∧ b ≤ 126 then [Char.ofNat b]
  else [Char.ofNat 92, Char.ofNat 120, hexDigit (b / 16), hexDigit (b % 16)]

/-- Python repr of a bytes object: `b` followed by a quoted literal.  The
delimiter is the single quote unless the bytes contain a single quote and no
double quote, in which case the double quote is used. -/
def pyBytesRepr (bs : List Nat) : String :=
  let q : Nat := if bs.contains 39 ∧ ¬ bs.contains 34 then 34 else 39
  String.mk ([Char.ofNat 98, Char.ofNat q] ++ (bs.map (byteEscape q)).flatten
    ++ [Char.ofNat q])

/-- Python repr of a string of ASCII characters (the argument vectors of the
script are such strings), with the same quote selection and escaping as for
bytes. -/
def pyStrRepr (s : String) : String :=
  let bs := s.data.map Char.toNat
  let q : Nat := if bs.contains 39 ∧ ¬ bs.contains 34 then 34 else 39
  String.mk ([Char.ofNat q] ++ (bs.map (byteEscape q)).flatten
    ++ [Char.ofNat q])

/-- Python repr of a list of strings: the element reprs in brackets,
separated by a comma and a space. -/
def pyListRepr (xs : List String) : String :=
  "[" ++ String.intercalate ", " (xs.map pyStrRepr) ++ "]"

/-- The line `print(result)` produces: the Python repr of the
`CompletedProcess` object.  `stderr` is `None` and is therefore omitted from
the repr. -/
def completedProcessRepr (r : CompletedProcess) : String :=
  "CompletedProcess(args=" ++ pyListRepr r.args ++ ", returncode="
    ++ toString r.returncode ++ ", stdout=" ++ pyBytesRepr r.stdout ++ ")"

/-- Semantics of `subprocess.run(args, stdout=subprocess.PIPE)` under a
fixed behaviour: an unhandled exception, or a `CompletedProcess` whose
`stdout` field holds exactly the bytes the child wrote to its standard
output. -/
def subprocessRun (beh : InvocationBehavior) (args : List String) :
    Except String CompletedProcess :=
  match beh with
  | InvocationBehavior.raises e => Except.error e
  | InvocationBehavior.returns r =>
      Except.ok { args := args, returncode := r.returncode,
                  stdout := r.stdout_bytes }

/-- Observable events of a run: a line printed by one of the fixed `print`
statements, a line printed by one of the two conditional `print(result)`
statements, and an external invocation being issued. -/
inductive Event where
  | out (line : String)
  | echo (line : String)
  | call (args : List String)
deriving DecidableEq

/-- How a run ends: reaching the end of the module (the interpreter exits
with the default successful status), or aborting on an unhandled
exception. -/
inductive RunOutcome where
  | success
  | abort (err : String)
deriving DecidableEq

/-- The events of `if result.stdout: print(result)`: one echo event when the
captured standard output is non-empty (a non-empty bytes object is truthy),
nothing otherwise. -/
def echoEvents (r : CompletedProcess) : List Event :=
  if r.stdout = [] then [] else [Event.echo (completedProcessRepr r)]

/-- The three fixed lines printed before the first invocation. -/
def preKillEvents : List Event :=
  [Event.out sepLine, Event.out "Killing OneDrive...", Event.out sepLine]

/-- The four fixed lines printed between the handling of the first
invocation and the second invocation. -/
def midEvents : List Event :=
  [Event.out "OneDrive Killed", Event.out sepLine,
   Event.out "Opening OneDrive...", Event.out sepLine]

/-- The whole script, line by line: print the three opening lines, run
`killall OneDrive`, echo its result if its captured output is non-empty,
print the four middle lines, run `open -a OneDrive`, echo its result if its
captured output is non-empty, print the closing line.  An invocation that
raises aborts the run at that point with the exception unhandled. -/
def killodTrace (w : World) : List Event × RunOutcome :=
  match subprocessRun w.killall killallArgs with
  | Except.error e =>
      (preKillEvents ++ [Event.call killallArgs], RunOutcome.abort e)
  | Except.ok r1 =>
      match subprocessRun w.openCmd openArgs with
      | Except.error e =>
          (preKillEvents ++ [Event.call killallArgs] ++ echoEvents r1
             ++ midEvents ++ [Event.call openArgs], RunOutcome.abort e)
      | Except.ok r2 =>
          (preKillEvents ++ [Event.call killallArgs] ++ echoEvents r1
             ++ midEvents ++ [Event.call openArgs] ++ echoEvents r2
             ++ [Event.out "OneDrive open"], RunOutcome.success)

/-- The line printed by an event, if it prints one. -/
def printedOf : Event → Option String
  | Event.out s => some s
  | Event.echo s => some s
  | Event.call _ => none

/-- The line printed by an event, when it is one of the fixed `print`
statements. -/
def narratedOf : Event → Option String
  | Event.out s => some s
  | Event.echo _ => none
  | Event.call _ => none

/-- All lines the script prints, in order (fixed narration and conditional
echoes alike). -/
def printedLines (w : World) : List String :=
  (killodTrace w).1.filterMap printedOf

/-- The fixed narration lines the script prints, in order (the conditional
echoes excluded). -/
def narrationLines (w : World) : List String :=
  (killodTrace w).1.filterMap narratedOf

/-- The lines the conditional echo of one invocation result contributes to
the console. -/
def echoLines (r : CompletedProcess) : List String :=
  if r.stdout = [] then [] else [completedProcessRepr r]

/-- The eight fixed narration lines of a completed run. -/
def fullNarration : List String :=
  [sepLine, "Killing OneDrive...", sepLine, "OneDrive Killed",
   sepLine, "Opening OneDrive...", sepLine, "OneDrive open"]

/-- A behaviour with the standard error bytes discarded. -/
def eraseStderr (b : InvocationBehavior) : InvocationBehavior :=
  match b with
  | InvocationBehavior.raises e => InvocationBehavior.raises e
  | InvocationBehavior.returns r =>
      InvocationBehavior.returns
        { returncode := r.returncode, stdout_bytes := r.stdout_bytes,
          stderr_bytes := [] }

/-- A run in which both invocations complete with empty captured output. -/
def quietWorld : World :=
  { killall := InvocationBehavior.returns
      { returncode := 0, stdout_bytes := [], stderr_bytes := [] },
    openCmd := InvocationBehavior.returns
      { returncode := 0, stdout_bytes := [], stderr_bytes := [] } }

/-- A run in which the first invocation captures the two bytes of the text
"hi" on standard output. -/
def chattyWorld : World :=
  { killall := InvocationBehavior.returns
      { returncode := 0, stdout_bytes := [104, 105], stderr_bytes := [] },
    openCmd := InvocationBehavior.returns
      { returncode := 0, stdout_bytes := [], stderr_bytes := [] } }

/-- A run in which the first invocation fails (return code 1) and writes the
text "No matching processes" only to standard error, as `killall` does when
no instance of the target is running. -/
def stderrWorld : World :=
  { killall := InvocationBehavior.returns
      { returncode := 1, stdout_bytes := [],
        stderr_bytes := [78, 111, 32, 109, 97, 116, 99, 104, 105, 110, 103,
          32, 112, 114, 111, 99, 101, 115, 115, 101, 115] },
    openCmd := InvocationBehavior.returns
      { returncode := 0, stdout_bytes := [], stderr_bytes := [] } }

/-- Unfolding of a run in which both invocations complete. -/
theorem killodTrace_returns (w : World) (r1 r2 : InvocationResult)
    (h1 : w.killall = InvocationBehavior.returns r1)
    (h2 : w.openCmd = InvocationBehavior.returns r2) :
    killodTrace w =
      (preKillEvents ++ [Event.call killallArgs]
         ++ echoEvents { args := killallArgs, returncode := r1.returncode,
                         stdout := r1.stdout_bytes }
         ++ midEvents ++ [Event.call openArgs]
         ++ echoEvents { args := openArgs, returncode := r2.returncode,
                         stdout := r2.stdout_bytes }
         ++ [Event.out "OneDrive open"], RunOutcome.success) := by
  simp [killodTrace, subprocessRun, h1, h2]

/-- The echo events of one result print exactly its echo lines. -/
theorem filterMap_printedOf_echoEvents (r : CompletedProcess) :
    (echoEvents r).filterMap printedOf = echoLines r := by
  unfold echoEvents echoLines
  split <;> simp [printedOf]

/-- The echo events of one result contribute no fixed narration line. -/
theorem filterMap_narratedOf_echoEvents (r : CompletedProcess) :
    (echoEvents r).filterMap narratedOf = [] := by
  unfold echoEvents
  split <;> simp [narratedOf]

/-- The printed lines of a run in which both invocations complete. -/
theorem printedLines_returns (w : World) (r1 r2 : InvocationResult)
    (h1 : w.killall = InvocationBehavior.returns r1)
    (h2 : w.openCmd = InvocationBehavior.returns r2) :
    printedLines w =
      [sepLine, "Killing OneDrive...", sepLine]
        ++ echoLines { args := killallArgs, returncode := r1.returncode,
                       stdout := r1.stdout_bytes }
        ++ ["OneDrive Killed", sepLine, "Opening OneDrive...", sepLine]
        ++ echoLines { args := openArgs, returncode := r2.returncode,
                       stdout := r2.stdout_bytes }
        ++ ["OneDrive open"] := by
  unfold printedLines
  rw [killodTrace_returns w r1 r2 h1 h2]
  simp [preKillEvents, midEvents, filterMap_printedOf_echoEvents, printedOf]

/-- The fixed narration of a run in which both invocations complete. -/
theorem narrationLines_returns (w : World) (r1 r2 : InvocationResult)
    (h1 : w.killall = InvocationBehavior.returns r1)
    (h2 : w.openCmd = InvocationBehavior.returns r2) :
    narrationLines w = fullNarration := by
  unfold narrationLines
  rw [killodTrace_returns w r1 r2 h1 h2]
  simp [preKillEvents, midEvents, filterMap_narratedOf_echoEvents, narratedOf,
    fullNarration]

/-- The number of lines a conditional echo prints is determined by whether
the captured output is empty. -/
theorem echoLines_length (r : CompletedProcess) :
    (echoLines r).length = if r.stdout = [] then 0 else 1 := by
  unfold echoLines
  split <;> simp

/-- Claim C1: for the fixed target name OneDrive, when both external
invocations complete with empty captured output, the script prints exactly
the eight narration lines, in order, and nothing else, and the run ends
with the default successful exit status. -/
theorem C1_quiet_transcript (w : World) (r1 r2 : InvocationResult)
    (h1 : w.killall = InvocationBehavior.returns r1)
    (h2 : w.openCmd = InvocationBehavior.returns r2)
    (e1 : r1.stdout_bytes = []) (e2 : r2.stdout_bytes = []) :
    printedLines w =
      [sepLine, "Killing OneDrive...", sepLine, "OneDrive Killed",
       sepLine, "Opening OneDrive...", sepLine, "OneDrive open"] ∧
    (killodTrace w).2 = RunOutcome.success := by
  constructor
  · rw [printedLines_returns w r1 r2 h1 h2]
    simp [echoLines, e1, e2]
  · rw [killodTrace_returns w r1 r2 h1 h2]

/-- Witness for C1 at the run in which both invocations succeed quietly. -/
theorem C1_quiet_transcript_witness :
    printedLines quietWorld =
      [sepLine, "Killing OneDrive...", sepLine, "OneDrive Killed",
       sepLine, "Opening OneDrive...", sepLine, "OneDrive open"] ∧
    (killodTrace quietWorld).2 = RunOutcome.success :=
  C1_quiet_transcript quietWorld
    { returncode := 0, stdout_bytes := [], stderr_bytes := [] }
    { returncode := 0, stdout_bytes := [], stderr_bytes := [] }
    rfl rfl rfl rfl

/-- Claim C2: whenever the launch invocation is issued, the trace up to that
point consists of the opening lines, the termination invocation, its
conditional echo, and the four middle lines ending the kill phase: the
launch call comes strictly after the termination call has returned and its
output handling and the kill-complete notice have been printed. -/
theorem C2_launch_after_kill (w : World)
    (hmem : Event.call openArgs ∈ (killodTrace w).1) :
    ∃ r1 : CompletedProcess,
      subprocessRun w.killall killallArgs = Except.ok r1 ∧
      ∃ rest : List Event,
        (killodTrace w).1 =
          preKillEvents ++ [Event.call killallArgs] ++ echoEvents r1
            ++ midEvents ++ Event.call openArgs :: rest := by
  rcases w with ⟨kb, ob⟩
  cases kb with
  | raises e =>
      exact absurd (by simpa [killodTrace, subprocessRun] using hmem)
        (by decide)
  | returns r1 =>
      refine ⟨{ args := killallArgs, returncode := r1.returncode,
                stdout := r1.stdout_bytes }, rfl, ?_⟩
      cases ob with
      | raises e =>
          exact ⟨[], by simp [killodTrace, subprocessRun]⟩
      | returns r2 =>
          exact ⟨echoEvents { args := openArgs, returncode := r2.returncode,
                              stdout := r2.stdout_bytes }
                   ++ [Event.out "OneDrive open"],
                 by simp [killodTrace, subprocessRun]⟩

/-- Witness for C2 at the quiet run. -/
theorem C2_launch_after_kill_witness :
    ∃ r1 : CompletedProcess,
      subprocessRun quietWorld.killall killallArgs = Except.ok r1 ∧
      ∃ rest : List Event,
        (killodTrace quietWorld).1 =
          preKillEvents ++ [Event.call killallArgs] ++ echoEvents r1
            ++ midEvents ++ Event.call openArgs :: rest :=
  C2_launch_after_kill quietWorld (by decide)

/-- Claim C3: if the termination invocation raises at the OS-invocation
level, the run aborts with that failure and the launch invocation is never
attempted. -/
theorem C3_kill_raise_aborts (w : World) (e : String)
    (h : w.killall = InvocationBehavior.raises e) :
    (killodTrace w).2 = RunOutcome.abort e ∧
      Event.call openArgs ∉ (killodTrace w).1 := by
  refine ⟨by simp [killodTrace, subprocessRun, h], ?_⟩
  simp only [killodTrace, subprocessRun, h]
  decide

/-- Witness for C3 at a run in which the kill command binary is missing. -/
theorem C3_kill_raise_aborts_witness :
    (killodTrace
        { killall := InvocationBehavior.raises "FileNotFoundError",
          openCmd := InvocationBehavior.returns
            { returncode := 0, stdout_bytes := [], stderr_bytes := [] } }).2
        = RunOutcome.abort "FileNotFoundError" ∧
    Event.call openArgs ∉
      (killodTrace
        { killall := InvocationBehavior.raises "FileNotFoundError",
          openCmd := InvocationBehavior.returns
            { returncode := 0, stdout_bytes := [], stderr_bytes := [] } }).1 :=
  C3_kill_raise_aborts _ "FileNotFoundError" rfl

/-- Counterexample to claim C4: in the run in which the termination call
captures the standard-output text "hi", an echo line is printed (the fourth
printed line is the repr of the whole `CompletedProcess` object, carrying
the argument vector and the return code), but the verbatim captured text
"hi" appears nowhere in the printed output. -/
theorem C4_repr_not_verbatim :
    printedLines chattyWorld =
      [sepLine, "Killing OneDrive...", sepLine,
       completedProcessRepr
         { args := killallArgs, returncode := 0, stdout := [104, 105] },
       "OneDrive Killed", sepLine, "Opening OneDrive...", sepLine,
       "OneDrive open"] ∧
    "hi" ∉ printedLines chattyWorld := by
  constructor
  · rfl
  · decide

/-- Claim C4 as amended: for each of the two external calls an echo line is
printed if and only if the captured output of that call is non-empty, and
the echoed line is the Python representation of the whole result object
(argument vector, return code and captured output bytes), not the bare
captured text. -/
theorem C4_echo_iff_nonempty (w : World) (r1 r2 : InvocationResult)
    (h1 : w.killall = InvocationBehavior.returns r1)
    (h2 : w.openCmd = InvocationBehavior.returns r2) :
    (killodTrace w).1 =
      preKillEvents ++ [Event.call killallArgs]
        ++ (if r1.stdout_bytes = [] then []
            else [Event.echo (completedProcessRepr
              { args := killallArgs, returncode := r1.returncode,
                stdout := r1.stdout_bytes })])
        ++ midEvents ++ [Event.call openArgs]
        ++ (if r2.stdout_bytes = [] then []
            else [Event.echo (completedProcessRepr
              { args := openArgs, returncode := r2.returncode,
                stdout := r2.stdout_bytes })])
        ++ [Event.out "OneDrive open"] := by
  rw [killodTrace_returns w r1 r2 h1 h2]
  simp [echoEvents]

/-- Witness for the amended C4 at the run whose termination call captures
the text "hi". -/
theorem C4_echo_iff_nonempty_witness :
    (killodTrace chattyWorld).1 =
      preKillEvents ++ [Event.call killallArgs]
        ++ (if ([104, 105] : List Nat) = [] then []
            else [Event.echo (completedProcessRepr
              { args := killallArgs, returncode := 0,
                stdout := [104, 105] })])
        ++ midEvents ++ [Event.call openArgs]
        ++ (if ([] : List Nat) = [] then []
            else [Event.echo (completedProcessRepr
              { args := openArgs, returncode := 0, stdout := [] })])
        ++ [Event.out "OneDrive open"] :=
  C4_echo_iff_nonempty chattyWorld
    { returncode := 0, stdout_bytes := [104, 105], stderr_bytes := [] }
    { returncode := 0, stdout_bytes := [], stderr_bytes := [] }
    rfl rfl

/-- Counterexample to claim C5: in the quiet run, only three fixed lines are
printed before the kill invocation is issued — the fourth trace event is
already the invocation itself, so the narration does not begin with four
fixed lines. -/
theorem C5_three_lines_before_kill :
    (killodTrace quietWorld).1.take 3 =
      [Event.out sepLine, Event.out "Killing OneDrive...",
       Event.out sepLine] ∧
    (killodTrace quietWorld).1[3]? = some (Event.call killallArgs) := by
  decide

/-- Claim C5 as amended: the narration is structured as three fixed lines
printed before the kill call, then the optional echoed output, then the
kill-complete line, then three fixed lines printed before the launch call,
then the optional echoed output, then the launch-complete line. -/
theorem C5_narration_structure (w : World) (r1 r2 : InvocationResult)
    (h1 : w.killall = InvocationBehavior.returns r1)
    (h2 : w.openCmd = InvocationBehavior.returns r2) :
    printedLines w =
      [sepLine, "Killing OneDrive...", sepLine]
        ++ echoLines { args := killallArgs, returncode := r1.returncode,
                       stdout := r1.stdout_bytes }
        ++ ["OneDrive Killed"]
        ++ [sepLine, "Opening OneDrive...", sepLine]
        ++ echoLines { args := openArgs, returncode := r2.returncode,
                       stdout := r2.stdout_bytes }
        ++ ["OneDrive open"] := by
  rw [printedLines_returns w r1 r2 h1 h2]
  simp

/-- Witness for the amended C5 at the run whose termination call captures
the text "hi". -/
theorem C5_narration_structure_witness :
    printedLines chattyWorld =
      [sepLine, "Killing OneDrive...", sepLine]
        ++ echoLines { args := killallArgs, returncode := 0,
                       stdout := [104, 105] }
        ++ ["OneDrive Killed"]
        ++ [sepLine, "Opening OneDrive...", sepLine]
        ++ echoLines { args := openArgs, returncode := 0, stdout := [] }
        ++ ["OneDrive open"] :=
  C5_narration_structure chattyWorld
    { returncode := 0, stdout_bytes := [104, 105], stderr_bytes := [] }
    { returncode := 0, stdout_bytes := [], stderr_bytes := [] }
    rfl rfl

/-- Claim C6: the script never branches on the exit status of either
external call — a completed run always ends with the default successful
status, and changing only the return codes of the two calls changes neither
the fixed narration nor the number of printed lines. -/
theorem C6_no_status_branching (r1 r2 s1 s2 : InvocationResult)
    (ho1 : s1.stdout_bytes = r1.stdout_bytes)
    (ho2 : s2.stdout_bytes = r2.stdout_bytes) :
    (killodTrace { killall := InvocationBehavior.returns r1,
                   openCmd := InvocationBehavior.returns r2 }).2
        = RunOutcome.success ∧
    narrationLines { killall := InvocationBehavior.returns s1,
                     openCmd := InvocationBehavior.returns s2 }
        = narrationLines { killall := InvocationBehavior.returns r1,
                           openCmd := InvocationBehavior.returns r2 } ∧
    (printedLines { killall := InvocationBehavior.returns s1,
                    openCmd := InvocationBehavior.returns s2 }).length
        = (printedLines { killall := InvocationBehavior.returns r1,
                          openCmd := InvocationBehavior.returns r2 }).length := by
  refine ⟨by rw [killodTrace_returns _ r1 r2 rfl rfl], ?_, ?_⟩
  · rw [narrationLines_returns _ s1 s2 rfl rfl,
      narrationLines_returns _ r1 r2 rfl rfl]
  · rw [printedLines_returns _ s1 s2 rfl rfl,
      printedLines_returns _ r1 r2 rfl rfl]
    simp [echoLines_length, ho1, ho2]

/-- Witness for C6: runs that differ only in the return codes of the two
calls. -/
theorem C6_no_status_branching_witness :
    (killodTrace { killall := InvocationBehavior.returns
                     { returncode := 0, stdout_bytes := [104, 105],
                       stderr_bytes := [] },
                   openCmd := InvocationBehavior.returns
                     { returncode := 0, stdout_bytes := [],
                       stderr_bytes := [] } }).2 = RunOutcome.success ∧
    narrationLines { killall := InvocationBehavior.returns
                       { returncode := 137, stdout_bytes := [104, 105],
                         stderr_bytes := [] },
                     openCmd := InvocationBehavior.returns
                       { returncode := 1, stdout_bytes := [],
                         stderr_bytes := [] } }
        = narrationLines { killall := InvocationBehavior.returns
                             { returncode := 0, stdout_bytes := [104, 105],
                               stderr_bytes := [] },
                           openCmd := InvocationBehavior.returns
                             { returncode := 0, stdout_bytes := [],
                               stderr_bytes := [] } } ∧
    (printedLines { killall := InvocationBehavior.returns
                      { returncode := 137, stdout_bytes := [104, 105],
                        stderr_bytes := [] },
                    openCmd := InvocationBehavior.returns
                      { returncode := 1, stdout_bytes := [],
                        stderr_bytes := [] } }).length
        = (printedLines { killall := InvocationBehavior.returns
                            { returncode := 0, stdout_bytes := [104, 105],
                              stderr_bytes := [] },
                          openCmd := InvocationBehavior.returns
                            { returncode := 0, stdout_bytes := [],
                              stderr_bytes := [] } }).length :=
  C6_no_status_branching
    { returncode := 0, stdout_bytes := [104, 105], stderr_bytes := [] }
    { returncode := 0, stdout_bytes := [], stderr_bytes := [] }
    { returncode := 137, stdout_bytes := [104, 105], stderr_bytes := [] }
    { returncode := 1, stdout_bytes := [], stderr_bytes := [] }
    rfl rfl

/-- Claim C7: when the termination call finds nothing to kill and returns a
non-zero status, the launch invocation is still issued and the run still
ends successfully. -/
theorem C7_launch_despite_nonzero (w : World) (r1 r2 : InvocationResult)
    (h1 : w.killall = InvocationBehavior.returns r1)
    (hrc : r1.returncode ≠ 0)
    (h2 : w.openCmd = InvocationBehavior.returns r2) :
    Event.call openArgs ∈ (killodTrace w).1 ∧
      (killodTrace w).2 = RunOutcome.success := by
  have h := killodTrace_returns w r1 r2 h1 h2
  constructor
  · rw [show (killodTrace w).1 = _ from congrArg Prod.fst h]
    simp
  · rw [h]

/-- Witness for C7 at the run in which `killall` finds no process, returns
status 1 and writes its complaint to standard error. -/
theorem C7_launch_despite_nonzero_witness :
    Event.call openArgs ∈ (killodTrace stderrWorld).1 ∧
      (killodTrace stderrWorld).2 = RunOutcome.success :=
  C7_launch_despite_nonzero stderrWorld
    { returncode := 1, stdout_bytes := [],
      stderr_bytes := [78, 111, 32, 109, 97, 116, 99, 104, 105, 110, 103,
        32, 112, 114, 111, 99, 101, 115, 115, 101, 115] }
    { returncode := 0, stdout_bytes := [], stderr_bytes := [] }
    rfl (by decide) rfl

/-- Claim C8: for any two completed runs, the fixed narration sequence is
the same, whatever the two invocations returned. -/
theorem C8_narration_identical (w v : World) (r1 r2 s1 s2 : InvocationResult)
    (h1 : w.killall = InvocationBehavior.returns r1)
    (h2 : w.openCmd = InvocationBehavior.returns r2)
    (h3 : v.killall = InvocationBehavior.returns s1)
    (h4 : v.openCmd = InvocationBehavior.returns s2) :
    narrationLines w = narrationLines v := by
  rw [narrationLines_returns w r1 r2 h1 h2,
    narrationLines_returns v s1 s2 h3 h4]

/-- Witness for C8: the quiet run and the run with captured output and a
failing kill have the same fixed narration. -/
theorem C8_narration_identical_witness :
    narrationLines quietWorld = narrationLines stderrWorld :=
  C8_narration_identical quietWorld stderrWorld
    { returncode := 0, stdout_bytes := [], stderr_bytes := [] }
    { returncode := 0, stdout_bytes := [], stderr_bytes := [] }
    { returncode := 1, stdout_bytes := [],
      stderr_bytes := [78, 111, 32, 109, 97, 116, 99, 104, 105, 110, 103,
        32, 112, 114, 111, 99, 101, 115, 115, 101, 115] }
    { returncode := 0, stdout_bytes := [], stderr_bytes := [] }
    rfl rfl rfl rfl

/-- Counterexample to claim C9: in the run in which the termination call
writes a non-empty message only to standard error (and nothing to standard
output), no echo line is printed — the printed output is exactly the eight
fixed narration lines.  If the captured output tested for the echo
comprised standard error as well, it would be non-empty here and an echo
would be printed. -/
theorem C9_stderr_not_captured :
    (match stderrWorld.killall with
     | InvocationBehavior.returns r =>
         r.stderr_bytes ≠ [] ∧ r.stdout_bytes = []
     | InvocationBehavior.raises _ => False) ∧
    printedLines stderrWorld = fullNarration := by
  exact ⟨⟨by decide, rfl⟩, by decide⟩

/-- Claim C9 as amended: the captured output of each invocation comprises
only the bytes the child wrote to standard output; standard error is not
captured, and what a child writes to standard error has no effect on the
run. -/
theorem C9_captured_is_stdout_only (w : World) :
    (∀ (r : InvocationResult) (args : List String),
        subprocessRun (InvocationBehavior.returns r) args =
          Except.ok { args := args, returncode := r.returncode,
                      stdout := r.stdout_bytes }) ∧
    killodTrace w =
      killodTrace { killall := eraseStderr w.killall,
                    openCmd := eraseStderr w.openCmd } := by
  refine ⟨fun r args => rfl, ?_⟩
  rcases w with ⟨kb, ob⟩
  cases kb <;> cases ob <;>
    simp [killodTrace, subprocessRun, eraseStderr]

/-- Claim C10: the script reads no input of its own — its whole behaviour is
a function of the two invocation results, and only of their captured
standard-output bytes and return codes: two runs whose invocations agree on
those produce identical printed output and outcome, even if the bytes
written to standard error differ. -/
theorem C10_output_determined (r1 r2 s1 s2 : InvocationResult)
    (hc1 : s1.returncode = r1.returncode)
    (ho1 : s1.stdout_bytes = r1.stdout_bytes)
    (hc2 : s2.returncode = r2.returncode)
    (ho2 : s2.stdout_bytes = r2.stdout_bytes) :
    printedLines { killall := InvocationBehavior.returns s1,
                   openCmd := InvocationBehavior.returns s2 }
        = printedLines { killall := InvocationBehavior.returns r1,
                         openCmd := InvocationBehavior.returns r2 } ∧
    (killodTrace { killall := InvocationBehavior.returns s1,
                   openCmd := InvocationBehavior.returns s2 }).2
        = (killodTrace { killall := InvocationBehavior.returns r1,
                         openCmd := InvocationBehavior.returns r2 }).2 := by
  constructor
  · rw [printedLines_returns _ s1 s2 rfl rfl,
      printedLines_returns _ r1 r2 rfl rfl, hc1, ho1, hc2, ho2]
  · rw [killodTrace_returns _ s1 s2 rfl rfl,
      killodTrace_returns _ r1 r2 rfl rfl]

/-- Witness for C10: two runs whose invocations agree on return codes and
captured output but differ in what was written to standard error. -/
theorem C10_output_determined_witness :
    printedLines { killall := InvocationBehavior.returns
                     { returncode := 0, stdout_bytes := [104, 105],
                       stderr_bytes := [119, 97, 116] },
                   openCmd := InvocationBehavior.returns
                     { returncode := 0, stdout_bytes := [],
                       stderr_bytes := [] } }
        = printedLines { killall := InvocationBehavior.returns
                           { returncode := 0, stdout_bytes := [104, 105],
                             stderr_bytes := [] },
                         openCmd := InvocationBehavior.returns
                           { returncode := 0, stdout_bytes := [],
                             stderr_bytes := [] } } ∧
    (killodTrace { killall := InvocationBehavior.returns
                     { returncode := 0, stdout_bytes := [104, 105],
                       stderr_bytes := [119, 97, 116] },
                   openCmd := InvocationBehavior.returns
                     { returncode := 0, stdout_bytes := [],
                       stderr_bytes := [] } }).2
        = (killodTrace { killall := InvocationBehavior.returns
                           { returncode := 0, stdout_bytes := [104, 105],
                             stderr_bytes := [] },
                         openCmd := InvocationBehavior.returns
                           { returncode := 0, stdout_bytes := [],
                             stderr_bytes := [] } }).2 :=
  C10_output_determined
    { returncode := 0, stdout_bytes := [104, 105], stderr_bytes := [] }
    { returncode := 0, stdout_bytes := [], stderr_bytes := [] }
    { returncode := 0, stdout_bytes := [104, 105],
      stderr_bytes := [119, 97, 116] }
    { returncode := 0, stdout_bytes := [], stderr_bytes := [] }
    rfl rfl rfl rfl
